import Mathlib

/-!
Verification of the Kong gateway deployment orchestrator.

This file gives a shallow embedding, in Lean, of the Python sources
`utils.py`, `deploy.py`, `secret_manager.py` and `secret_admin.py` of the
kong-gateway repository, and proves properties of the embedded functions.

External processes (docker, the kong migration tool, the AWS clients) are
modelled as environment parameters: a function invocation that in Python
shells out to a subprocess here consumes the subprocess outcome from an
explicit argument.  Machine-level details that no property depends on
(UTF-8 handling of `str.strip`, JSON surface syntax) are modelled at the
level the Python code observes them.
-/

namespace KongGateway

/-- Outcome of one external process invocation, as captured by Python's
`subprocess.run(..., capture_output=True, text=True)`: the exit status and
the two captured streams. -/
structure CmdResult where
  returncode : Nat
  stdout : String
  stderr : String
  deriving DecidableEq, Repr

/-- Python's `" ".join(cmd)`. -/
def joinCmd : List String → String
  | [] => ""
  | [x] => x
  | x :: y :: xs => x ++ " " ++ joinCmd (y :: xs)

/-- The substring relation on strings: `IsSubstr pat s` holds when `pat`
occurs contiguously inside `s`. -/
def IsSubstr (pat s : String) : Prop := ∃ a b, s = a ++ pat ++ b

/-- Python truthiness print of a captured stream: `if s: print(s.strip())`
contributes the stripped stream to the log exactly when the stream is
nonempty. -/
def streamLines (s : String) : List String :=
  if s = "" then [] else [s.trim]

/-- Shallow embedding of `utils.run_command(cmd, env=None, check=True)`.
`res` is the environment-provided outcome of executing `cmd`.
`subprocess.run` raises `CalledProcessError` exactly when `check` is set and
the exit status is nonzero; in that case the handler logs the failure line
and both streams and calls `sys.exit(1)` (modelled as `Except.error 1`).
Otherwise the result, streams attached, is returned to the caller.
Returns the operator-facing log lines paired with the outcome. -/
def run_command (res : CmdResult) (cmd : List String) (check : Bool) :
    List String × Except Nat CmdResult :=
  let runLine := "Running: " ++ joinCmd cmd
  if check ∧ res.returncode ≠ 0 then
    (runLine :: ("Command failed: " ++ joinCmd cmd) ::
      (streamLines res.stdout ++ streamLines res.stderr), Except.error 1)
  else
    (runLine :: (streamLines res.stdout ++ streamLines res.stderr),
      Except.ok res)

/-- C6: in fail-soft mode (`check = false`) a nonzero exit never raises: the
very result, exit status and both captured streams attached, is returned to
the caller; in fail-fast mode a nonzero exit terminates the operation
(exit code 1) after emitting the captured output; and in both modes the
command line and each nonempty captured stream appear in the operator-facing
log regardless of outcome. -/
theorem C6_run_command_modes (res : CmdResult) (cmd : List String) :
    (run_command res cmd false).2 = Except.ok res ∧
    (res.returncode ≠ 0 → (run_command res cmd true).2 = Except.error 1) ∧
    (∀ check, ("Running: " ++ joinCmd cmd) ∈ (run_command res cmd check).1 ∧
      (res.stdout ≠ "" → res.stdout.trim ∈ (run_command res cmd check).1) ∧
      (res.stderr ≠ "" → res.stderr.trim ∈ (run_command res cmd check).1)) := by
  refine ⟨by simp [run_command], fun h => by simp [run_command, h], fun check => ?_⟩
  unfold run_command streamLines
  split_ifs <;> simp_all

/-- Witness for C6 at a concrete failing command with nonempty streams. -/
theorem C6_run_command_modes_witness :
    (run_command ⟨2, "out", "err"⟩ ["docker", "ps"] false).2 =
      Except.ok ⟨2, "out", "err"⟩ ∧
    (run_command ⟨2, "out", "err"⟩ ["docker", "ps"] true).2 = Except.error 1 ∧
    ("Running: " ++ joinCmd ["docker", "ps"]) ∈
      (run_command ⟨2, "out", "err"⟩ ["docker", "ps"] true).1 ∧
    "out".trim ∈ (run_command ⟨2, "out", "err"⟩ ["docker", "ps"] true).1 ∧
    "err".trim ∈ (run_command ⟨2, "out", "err"⟩ ["docker", "ps"] true).1 := by
  obtain ⟨h1, h2, h3⟩ := C6_run_command_modes ⟨2, "out", "err"⟩ ["docker", "ps"]
  exact ⟨h1, h2 (by decide), (h3 true).1, (h3 true).2.1 (by decide),
    (h3 true).2.2 (by decide)⟩

/-- Wall-clock time consumed by `n` consecutive failed probe attempts
starting at attempt index `i`: each failed attempt takes its own duration
`dur` plus the fixed 2-second sleep that follows a failure. -/
def segElapsed (dur : Nat → Nat) (i n : Nat) : Nat :=
  match n with
  | 0 => 0
  | m + 1 => dur i + 2 + segElapsed dur (i + 1) m

/-- Loop body of `deploy.wait_for_postgres`: Python checks
`time.time() - start < timeout` before each attempt, runs the `pg_isready`
probe (consuming `dur i` seconds on attempt `i`), returns `True` on exit
status 0, otherwise sleeps 2 seconds and retries.  `e` is the elapsed time
since `start`; the probe outcome on attempt `i` is the environment value
`probe i`.  Alongside the Python boolean we return the number of probe
attempts issued, as ghost instrumentation for trace accounting. -/
def wfpLoop (probe : Nat → Bool) (dur : Nat → Nat) (timeout i e : Nat) :
    Bool × Nat :=
  if h : e < timeout then
    if probe i then (true, i + 1)
    else wfpLoop probe dur timeout (i + 1) (e + (dur i + 2))
  else (false, i)
termination_by timeout - e
decreasing_by omega

/-- Shallow embedding of `deploy.wait_for_postgres(port, timeout=60)`.
First component is the Python return value; second the number of
`pg_isready` attempts issued (ghost). -/
def wait_for_postgres (probe : Nat → Bool) (dur : Nat → Nat)
    (timeout : Nat) : Bool × Nat :=
  wfpLoop probe dur timeout 0 0

/-- Loop body of `utils.health_check`: Python iterates
`for _ in range(max_attempts)`, runs `docker exec kong kong status`
(outcome `probe i`, duration `dur i`), returns `True` on exit status 0,
otherwise sleeps 2 seconds; after the loop returns `False`.  Returns
(result, attempts issued, elapsed seconds), the last two ghost. -/
def hcLoop (probe : Nat → Bool) (dur : Nat → Nat) (i remaining : Nat) :
    Bool × Nat × Nat :=
  match remaining with
  | 0 => (false, 0, 0)
  | r + 1 =>
    if probe i then (true, 1, dur i)
    else
      let rest := hcLoop probe dur (i + 1) r
      (rest.1, rest.2.1 + 1, dur i + 2 + rest.2.2)

/-- Shallow embedding of `utils.health_check(max_attempts=30)`. -/
def health_check (probe : Nat → Bool) (dur : Nat → Nat)
    (max_attempts : Nat) : Bool × Nat × Nat :=
  hcLoop probe dur 0 max_attempts

theorem wfpLoop_true_iff (p : Nat → Bool) (d : Nat → Nat) (T : Nat) :
    ∀ i e, ((wfpLoop p d T i e).1 = true ↔
      ∃ n, p (i + n) = true ∧ (∀ m, m < n → p (i + m) = false) ∧
        e + segElapsed d i n < T) := by
  intro i e
  induction i, e using wfpLoop.induct p d T with
  | case1 i e he hp =>
    rw [wfpLoop]
    simp only [he, if_true, hp, if_pos, dif_pos]
    constructor
    · intro _
      exact ⟨0, by simpa using hp, by omega, by simpa [segElapsed] using he⟩
    · intro _; trivial
  | case2 i e he hp ih =>
    rw [wfpLoop]
    simp only [he, dif_pos]
    rw [if_neg (by simpa using hp)]
    rw [ih]
    constructor
    · rintro ⟨n, h1, h2, h3⟩
      refine ⟨n + 1, ?_, ?_, ?_⟩
      · have : i + (n + 1) = i + 1 + n := by omega
        rw [this]; exact h1
      · intro m hm
        match m with
        | 0 => simpa using hp
        | k + 1 =>
          have : i + (k + 1) = i + 1 + k := by omega
          rw [this]; exact h2 k (by omega)
      · simp only [segElapsed]; omega
    · rintro ⟨n, h1, h2, h3⟩
      match n with
      | 0 => simp at h1; rw [h1] at hp; simp at hp
      | k + 1 =>
        refine ⟨k, ?_, ?_, ?_⟩
        · have : i + 1 + k = i + (k + 1) := by omega
          rw [this]; exact h1
        · intro m hm
          have : i + 1 + m = i + (m + 1) := by omega
          rw [this]; exact h2 (m + 1) (by omega)
        · simp only [segElapsed] at h3; omega
  | case3 i e he =>
    rw [wfpLoop]
    simp only [dif_neg he]
    constructor
    · intro h; simp at h
    · rintro ⟨n, _, _, h3⟩
      exfalso; omega

theorem hcLoop_true_iff (p : Nat → Bool) (d : Nat → Nat) :
    ∀ r i, ((hcLoop p d i r).1 = true ↔ ∃ m, m < r ∧ p (i + m) = true) := by
  intro r
  induction r with
  | zero => intro i; simp [hcLoop]
  | succ r ih =>
    intro i
    rw [hcLoop]
    by_cases hp : p i
    · simp only [hp, if_true]
      exact ⟨fun _ => ⟨0, by omega, by simpa using hp⟩, fun _ => trivial⟩
    · rw [if_neg hp]
      simp only []
      rw [ih (i + 1)]
      constructor
      · rintro ⟨m, hm, h1⟩
        refine ⟨m + 1, by omega, ?_⟩
        have : i + (m + 1) = i + 1 + m := by omega
        rw [this]; exact h1
      · rintro ⟨m, hm, h1⟩
        match m with
        | 0 => simp at h1; exact absurd h1 hp
        | k + 1 =>
          refine ⟨k, by omega, ?_⟩
          have : i + 1 + k = i + (k + 1) := by omega
          rw [this]; exact h1

theorem hcLoop_attempts (p : Nat → Bool) (d : Nat → Nat) :
    ∀ r i, (∀ m, p m = false) → (hcLoop p d i r).2.1 = r := by
  intro r
  induction r with
  | zero => intro i _; simp [hcLoop]
  | succ r ih =>
    intro i hp
    rw [hcLoop]
    rw [if_neg (by simp [hp])]
    simp only []
    rw [ih (i + 1) hp]

/-- C4 counterexample: the claim asserts every probe loop is bounded by
elapsed time, not attempt count.  `utils.health_check` is attempt-bounded:
with a never-succeeding probe taking 58 seconds per attempt it still issues
all 30 attempts, accumulating 1800 seconds of wall-clock time, far beyond
the 60-second budget the spec names — whereas the same probe under the
time-bounded `wait_for_postgres` is attempted exactly once.  With
instantaneous attempts the attempt count is unchanged (30), showing the
bound is the attempt count. -/
theorem C4_counterexample_health_check_attempt_bounded :
    health_check (fun _ => false) (fun _ => 58) 30 = (false, 30, 1800) ∧
    health_check (fun _ => false) (fun _ => 0) 30 = (false, 30, 60) ∧
    (wait_for_postgres (fun _ => false) (fun _ => 58) 60).2 = 1 ∧
    ¬(1800 ≤ 60) := by
  refine ⟨by decide, by decide, ?_, by decide⟩
  rw [wait_for_postgres, wfpLoop]
  norm_num
  rw [wfpLoop]
  norm_num

/-- C4 amended: `wait_for_postgres` terminates and returns a definite
boolean, true exactly when the first successful probe attempt starts before
the elapsed wall-clock time reaches the timeout, sleeping 2 seconds after
each failed attempt — this loop is bounded by elapsed time.  The gateway
health probe `health_check`, by contrast, is bounded by a fixed attempt
count: it returns true exactly when one of the first `max_attempts` probes
succeeds, and with a never-succeeding probe it issues exactly `max_attempts`
attempts regardless of per-attempt duration. -/
theorem C4_pollers_characterized (p : Nat → Bool) (d : Nat → Nat)
    (T n : Nat) :
    ((wait_for_postgres p d T).1 = true ↔
      ∃ k, p k = true ∧ (∀ m, m < k → p m = false) ∧ segElapsed d 0 k < T) ∧
    ((health_check p d n).1 = true ↔ ∃ m, m < n ∧ p m = true) ∧
    ((∀ m, p m = false) → (health_check p d n).2.1 = n) := by
  refine ⟨?_, ?_, fun h => ?_⟩
  · simpa [wait_for_postgres] using wfpLoop_true_iff p d T 0 0
  · simpa [health_check] using hcLoop_true_iff p d n 0
  · simpa [health_check] using hcLoop_attempts p d n 0 h

/-- Witness for C4 at the never-healthy probe: exactly 30 attempts. -/
theorem C4_pollers_characterized_witness :
    (health_check (fun _ => false) (fun _ => 58) 30).2.1 = 30 :=
  (C4_pollers_characterized (fun _ => false) (fun _ => 58) 60 30).2.2
    (fun _ => rfl)

/-- A poll whose probe never succeeds reports timeout (false). -/
theorem wfp_never_ready (d : Nat → Nat) (T : Nat) :
    (wait_for_postgres (fun _ => false) d T).1 = false := by
  cases hb : (wait_for_postgres (fun _ => false) d T).1 with
  | false => rfl
  | true =>
    have h := (wfpLoop_true_iff (fun _ => false) d T 0 0).mp
      (by simpa [wait_for_postgres] using hb)
    obtain ⟨n, h1, -, -⟩ := h
    exact absurd h1 (by simp)

/-- Docker bridge host constant `CONTAINER_DB_HOST` of `deploy.py`. -/
def CONTAINER_DB_HOST : String := "172.17.0.1"

/-- The credential bundle as consumed by `deploy.py` (dictionary fields
accessed by `run_migrations` and `start_kong`; Python stringifies the port
with an f-string, so all fields are carried as strings here). -/
structure Credentials where
  username : String
  password : String
  host : String
  port : String
  dbname : String
  deriving DecidableEq, Repr

/-- The `pg_isready` probe command issued by `wait_for_postgres`. -/
def pg_probe_cmd (port : String) : List String :=
  ["docker", "run", "--rm", "postgres:13", "pg_isready",
    "-h", CONTAINER_DB_HOST, "-p", port]

/-- The gateway start command issued by `start_kong`. -/
def compose_up_cmd : List String := ["docker", "compose", "up", "-d"]

/-- The gateway stop command issued by `stop_kong`. -/
def compose_down_cmd : List String :=
  ["docker", "compose", "down", "--timeout", "30"]

/-- The container-state query issued by the `status` action. -/
def compose_ps_cmd : List String := ["docker", "compose", "ps"]

/-- Shallow embedding of `deploy.start_kong(credentials)`: polls
`wait_for_postgres(credentials["port"])` with the default 60-second timeout;
on timeout calls `sys.exit(1)`; otherwise exports the credentials into the
process environment and runs `docker compose up -d` through `run_command`
in fail-fast mode.  Returns the list of external commands issued (in
order) and the outcome. -/
def start_kong (pgProbe : Nat → Bool) (pgDur : Nat → Nat)
    (composeRes : CmdResult) (creds : Credentials) :
    List (List String) × Except Nat Unit :=
  let poll := wait_for_postgres pgProbe pgDur 60
  let probeTrace := List.replicate poll.2 (pg_probe_cmd creds.port)
  if poll.1 then
    match (run_command composeRes compose_up_cmd true).2 with
    | Except.ok _ => (probeTrace ++ [compose_up_cmd], Except.ok ())
    | Except.error c => (probeTrace ++ [compose_up_cmd], Except.error c)
  else (probeTrace, Except.error 1)

/-- C3: the gateway start command is issued only after the readiness poll
confirms the data store reachable; if the poll reports the store
unreachable before the timeout, the start command is never attempted and
the process exits nonzero (exit code 1). -/
theorem C3_start_gated_on_readiness (pgProbe : Nat → Bool)
    (pgDur : Nat → Nat) (composeRes : CmdResult) (creds : Credentials) :
    ((wait_for_postgres pgProbe pgDur 60).1 = false →
      (start_kong pgProbe pgDur composeRes creds).2 = Except.error 1 ∧
      compose_up_cmd ∉ (start_kong pgProbe pgDur composeRes creds).1) ∧
    (compose_up_cmd ∈ (start_kong pgProbe pgDur composeRes creds).1 →
      (wait_for_postgres pgProbe pgDur 60).1 = true) := by
  have hne : pg_probe_cmd creds.port ≠ compose_up_cmd := by
    simp [pg_probe_cmd, compose_up_cmd]
  constructor
  · intro h
    rw [start_kong]
    simp only [h, if_false, Bool.false_eq_true]
    refine ⟨trivial, ?_⟩
    intro hmem
    exact hne (List.eq_of_mem_replicate hmem).symm
  · intro hmem
    cases hb : (wait_for_postgres pgProbe pgDur 60).1 with
    | true => rfl
    | false =>
      rw [start_kong] at hmem
      simp only [hb, if_false, Bool.false_eq_true] at hmem
      exact absurd (List.eq_of_mem_replicate hmem).symm hne

/-- Witness for C3: with a never-ready data store the start command is not
attempted and the exit code is 1. -/
theorem C3_start_gated_on_readiness_witness :
    (start_kong (fun _ => false) (fun _ => 58) ⟨0, "", ""⟩
      ⟨"kong", "pw", "h", "5432", "kong"⟩).2 = Except.error 1 ∧
    compose_up_cmd ∉ (start_kong (fun _ => false) (fun _ => 58) ⟨0, "", ""⟩
      ⟨"kong", "pw", "h", "5432", "kong"⟩).1 :=
  (C3_start_gated_on_readiness (fun _ => false) (fun _ => 58) ⟨0, "", ""⟩
    ⟨"kong", "pw", "h", "5432", "kong"⟩).1 (wfp_never_ready _ _)

/-- Result of `json.loads` on a fetched `SecretString`: either a structured
object with string fields, or not valid JSON (the call raises
`JSONDecodeError`). -/
inductive SecretString
  | object (fields : List (String × String))
  | notJson
  deriving DecidableEq, Repr

/-- Environment model of one `secretsmanager.get_secret_value` call: the
distinct outcomes the `except` clauses of
`KongSecretsManager.get_secret` discriminate. -/
inductive AwsResponse
  | success (versionId : String) (secretString : SecretString)
  | resourceNotFound
  | accessDenied
  | noCredentials
  | clientError (code msg : String)
  deriving DecidableEq, Repr

/-- The named error kinds with which the credential read path fails; each
corresponds to one `except` clause of `KongSecretsManager.get_secret`
re-raising. -/
inductive FetchError
  | notFound
  | accessDenied
  | noCredentialContext
  | transientClientError (code : String)
  | malformedPayload
  deriving DecidableEq, Repr

/-- The field names of a credential payload. -/
def keysOf (fields : List (String × String)) : List String :=
  fields.map Prod.fst

/-- Shallow embedding of `KongSecretsManager.get_secret(secret_name)`:
calls `get_secret_value`, whose typed exceptions are re-raised after
printing a remediation hint; on success parses the payload
(`json.JSONDecodeError` re-raised) and logs ONLY the field names, never
values.  Returns the operator-facing log lines and the outcome. -/
def get_secret (store : String → AwsResponse) (name : String) :
    List String × Except FetchError (List (String × String)) :=
  let pre := ["Fetching secret: " ++ name, "requesting secrets for " ++ name]
  match store name with
  | AwsResponse.success vid ss =>
    let okLines := ["Secret retrieved successfully", "Version ID: " ++ vid]
    match ss with
    | SecretString.object fields =>
      (pre ++ okLines ++ ["Fields present: " ++ joinCmd (keysOf fields)],
        Except.ok fields)
    | SecretString.notJson =>
      (pre ++ okLines ++ ["SecretString is not valid JSON"],
        Except.error FetchError.malformedPayload)
  | AwsResponse.resourceNotFound =>
    (pre ++ ["Secret not found", "Name: " ++ name,
      "Check secret name and region"], Except.error FetchError.notFound)
  | AwsResponse.accessDenied =>
    (pre ++ ["Access denied when reading secret",
      "Check IAM role permissions: secretsmanager:GetSecretValue"],
      Except.error FetchError.accessDenied)
  | AwsResponse.noCredentials =>
    (pre ++ ["AWS credentials not found",
      "Is this running on an EC2 with IAM role attached?"],
      Except.error FetchError.noCredentialContext)
  | AwsResponse.clientError code msg =>
    (pre ++ ["AWS ClientError: " ++ code, "Message: " ++ msg],
      Except.error (FetchError.transientClientError code))

/-- C5 counterexample: the claim includes "missing required fields" among
the `MalformedPayload` failures, but `get_secret` performs no field
validation: a well-formed payload with no fields at all is returned as a
successful fetch, not rejected. -/
theorem C5_counterexample_missing_fields_accepted :
    (get_secret
      (fun _ => AwsResponse.success "v1" (SecretString.object []))
      "kong/db-credentials").2 = Except.ok [] := rfl

/-- C5 amended: fetch fails with the distinct named error kinds, each
propagating with no default substituted; MalformedPayload arises only for
payloads that are not well-formed structured data (a well-formed payload
missing required fields is returned as-is); and a nonexistent identifier
always yields NotFound, never MalformedPayload. -/
theorem C5_fetch_error_kinds (store : String → AwsResponse) (name : String) :
    (store name = AwsResponse.resourceNotFound →
      (get_secret store name).2 = Except.error FetchError.notFound ∧
      (get_secret store name).2 ≠ Except.error FetchError.malformedPayload) ∧
    (store name = AwsResponse.accessDenied →
      (get_secret store name).2 = Except.error FetchError.accessDenied) ∧
    (store name = AwsResponse.noCredentials →
      (get_secret store name).2 =
        Except.error FetchError.noCredentialContext) ∧
    (∀ code msg, store name = AwsResponse.clientError code msg →
      (get_secret store name).2 =
        Except.error (FetchError.transientClientError code)) ∧
    (∀ vid, store name = AwsResponse.success vid SecretString.notJson →
      (get_secret store name).2 = Except.error FetchError.malformedPayload) ∧
    (∀ vid fields,
      store name = AwsResponse.success vid (SecretString.object fields) →
      (get_secret store name).2 = Except.ok fields) := by
  refine ⟨fun h => ?_, fun h => ?_, fun h => ?_, fun code msg h => ?_,
    fun vid h => ?_, fun vid fields h => ?_⟩ <;> simp [get_secret, h]

/-- Witness for C5 at a store with no secret under the requested name. -/
theorem C5_fetch_error_kinds_witness :
    (get_secret (fun _ => AwsResponse.resourceNotFound) "kong").2 =
      Except.error FetchError.notFound ∧
    (get_secret (fun _ => AwsResponse.resourceNotFound) "kong").2 ≠
      Except.error FetchError.malformedPayload :=
  (C5_fetch_error_kinds (fun _ => AwsResponse.resourceNotFound) "kong").1 rfl

/-- `config.kong.kong_image` default. -/
def kong_image : String := "kong:3.6"

/-- The migration command built by `deploy.run_migrations`: the credential
values are interpolated into `-e` arguments of the `docker run` command
line (the same list that `run_command` echoes to the log). -/
def migration_cmd (c : Credentials) : List String :=
  ["docker", "run", "--rm",
    "-e", "KONG_DATABASE=postgres",
    "-e", "KONG_PG_HOST=" ++ CONTAINER_DB_HOST,
    "-e", "KONG_PG_PORT=" ++ c.port,
    "-e", "KONG_PG_USER=" ++ c.username,
    "-e", "KONG_PG_PASSWORD=" ++ c.password,
    "-e", "KONG_PG_DATABASE=" ++ c.dbname,
    kong_image, "sh", "-c",
    "kong migrations bootstrap || (kong migrations up && kong migrations finish)"]

/-- Schema state of the dependent data store, as the external kong
migration tool observes it. -/
inductive DbState
  | unmigrated
  | migrated
  deriving DecidableEq, Repr

/-- External collaborator semantics of `kong migrations bootstrap`:
succeeds (and migrates the schema) only on an unmigrated store; on an
already-bootstrapped store it exits nonzero and changes nothing. -/
def bootstrapStep : DbState → DbState × Bool
  | DbState.unmigrated => (DbState.migrated, true)
  | DbState.migrated => (DbState.migrated, false)

/-- External collaborator semantics of `kong migrations up && kong
migrations finish`: on an already-migrated store both are no-op successes;
on an unbootstrapped store they fail. -/
def upFinishStep : DbState → DbState × Bool
  | DbState.unmigrated => (DbState.unmigrated, false)
  | DbState.migrated => (DbState.migrated, true)

/-- Shell semantics of the composite one-liner
`kong migrations bootstrap || (kong migrations up && kong migrations
finish)` run against a store in state `db`. -/
def migrationShell (db : DbState) : DbState × Bool :=
  let b := bootstrapStep db
  if b.2 then b else upFinishStep b.1

/-- Shallow embedding of `deploy.run_migrations(credentials)`: builds the
migration command with the credential values interpolated and delegates to
`run_command` in fail-fast mode (Python default `check=True`).  `tool`
gives the semantics of the external migration process against the current
store state.  Returns the log, the new store state, and the outcome. -/
def run_migrations (tool : DbState → DbState × Bool) (db : DbState)
    (c : Credentials) : List String × DbState × Except Nat Unit :=
  let r := tool db
  let res : CmdResult := ⟨if r.2 then 0 else 1, "", ""⟩
  let rc := run_command res (migration_cmd c) true
  (rc.1, r.1, rc.2.map (fun _ => ()))

/-- C7: the migration operation is idempotent — against an already-migrated
store the composite command takes the upgrade-and-finish branch and is a
no-op success, the store state unchanged; against an unmigrated store it
bootstraps; and because the runner delegates to the command executor in
fail-fast mode, any failing migration command is fatal (exit code 1). -/
theorem C7_migrations_idempotent (c : Credentials) :
    (run_migrations migrationShell DbState.unmigrated c).2 =
      (DbState.migrated, Except.ok ()) ∧
    (run_migrations migrationShell DbState.migrated c).2 =
      (DbState.migrated, Except.ok ()) ∧
    (∀ tool db, (tool db).2 = false →
      (run_migrations tool db c).2.2 = Except.error 1) := by
  refine ⟨?_, ?_, fun tool db h => ?_⟩
  · simp [run_migrations, migrationShell, bootstrapStep, run_command,
      Except.map]
  · simp [run_migrations, migrationShell, bootstrapStep, upFinishStep,
      run_command, Except.map]
  · simp [run_migrations, h, run_command, Except.map]

/-- A concrete credential bundle used by witnesses (spec §8 scenario, with
a recognizable password value). -/
def cEx : Credentials := ⟨"kong", "pw1", "10.0.0.5", "5432", "kong"⟩

/-- Witness for C7: both calls of the §8 scenario, and fatality of a
failing migration command. -/
theorem C7_migrations_idempotent_witness :
    (run_migrations migrationShell DbState.unmigrated cEx).2 =
      (DbState.migrated, Except.ok ()) ∧
    (run_migrations migrationShell DbState.migrated cEx).2 =
      (DbState.migrated, Except.ok ()) ∧
    (run_migrations (fun db => (db, false)) DbState.migrated cEx).2.2 =
      Except.error 1 :=
  ⟨(C7_migrations_idempotent cEx).1, (C7_migrations_idempotent cEx).2.1,
    (C7_migrations_idempotent cEx).2.2 _ _ rfl⟩

theorem runLine_mem (res : CmdResult) (cmd : List String) (check : Bool) :
    ("Running: " ++ joinCmd cmd) ∈ (run_command res cmd check).1 := by
  unfold run_command
  split <;> simp

theorem IsSubstr_trans {p q s : String} (h1 : IsSubstr p q)
    (h2 : IsSubstr q s) : IsSubstr p s := by
  obtain ⟨a, b, rfl⟩ := h1
  obtain ⟨c, d, rfl⟩ := h2
  exact ⟨c ++ a, b ++ d, by simp [String.append_assoc]⟩

theorem isSubstr_append_left (t : String) {p s : String}
    (h : IsSubstr p s) : IsSubstr p (t ++ s) := by
  obtain ⟨a, b, rfl⟩ := h
  exact ⟨t ++ a, b, by simp [String.append_assoc]⟩

theorem isSubstr_of_mem_joinCmd {x : String} {l : List String}
    (h : x ∈ l) : IsSubstr x (joinCmd l) := by
  induction l with
  | nil => cases h
  | cons a l ih =>
    cases l with
    | nil =>
      simp only [List.mem_singleton] at h
      subst h
      exact ⟨"", "", by simp [joinCmd, String.empty_append,
        String.append_empty]⟩
    | cons b l' =>
      rcases List.mem_cons.mp h with h | h
      · subst h
        exact ⟨"", " " ++ joinCmd (b :: l'), by
          simp [joinCmd, String.empty_append, String.append_assoc]⟩
      · obtain ⟨s, t, hst⟩ := ih h
        exact ⟨a ++ " " ++ s, t, by
          simp [joinCmd, hst, String.append_assoc]⟩

/-- C2 counterexample: running the migration step logs the command line,
and that line contains the literal password value of the bundle — for the
concrete bundle `cEx` (password `pw1`) the first operator-facing log line
of `run_migrations` has `pw1` as a substring. -/
theorem C2_counterexample_password_in_migration_log :
    ("Running: " ++ joinCmd (migration_cmd cEx)) ∈
      (run_migrations migrationShell DbState.migrated cEx).1 ∧
    IsSubstr "pw1" ("Running: " ++ joinCmd (migration_cmd cEx)) := by
  constructor
  · simp only [run_migrations]
    exact runLine_mem _ _ _
  · refine isSubstr_append_left _ (IsSubstr_trans ?_
      (isSubstr_of_mem_joinCmd (l := migration_cmd cEx)
        (x := "KONG_PG_PASSWORD=" ++ "pw1") (by simp [migration_cmd, cEx])))
    exact ⟨"KONG_PG_PASSWORD=", "", by decide⟩

/-- C2 amended: on the start path the issued commands and outcome are
independent of the password value (credentials travel via the process
environment, which is never echoed); on the fetch path the log depends
only on the field names of the payload, never the values; but the
migration path writes the password value into the operator-facing log,
inside the echoed command line. -/
theorem C2_values_logged_only_by_migrations :
    (∀ (c : Credentials) (p q : String) (pg : Nat → Bool)
      (d : Nat → Nat) (res : CmdResult),
      start_kong pg d res { c with password := p } =
        start_kong pg d res { c with password := q }) ∧
    (∀ (store₁ store₂ : String → AwsResponse) (name vid : String)
      (f₁ f₂ : List (String × String)),
      store₁ name = AwsResponse.success vid (SecretString.object f₁) →
      store₂ name = AwsResponse.success vid (SecretString.object f₂) →
      keysOf f₁ = keysOf f₂ →
      (get_secret store₁ name).1 = (get_secret store₂ name).1) ∧
    (∀ (tool : DbState → DbState × Bool) (db : DbState) (c : Credentials),
      ("Running: " ++ joinCmd (migration_cmd c)) ∈
        (run_migrations tool db c).1 ∧
      IsSubstr c.password ("Running: " ++ joinCmd (migration_cmd c))) := by
  refine ⟨fun c p q pg d res => rfl, fun s₁ s₂ name vid f₁ f₂ h₁ h₂ hk => ?_,
    fun tool db c => ⟨?_, ?_⟩⟩
  · simp [get_secret, h₁, h₂, hk]
  · simp only [run_migrations]
    exact runLine_mem _ _ _
  · refine isSubstr_append_left _ (IsSubstr_trans ?_
      (isSubstr_of_mem_joinCmd (l := migration_cmd c)
        (x := "KONG_PG_PASSWORD=" ++ c.password) (by simp [migration_cmd])))
    exact ⟨"KONG_PG_PASSWORD=", "",
      by simp [String.append_assoc, String.append_empty]⟩

/-- Witness for C2 at concrete stores whose payloads share field names and
at the bundle `cEx`. -/
theorem C2_values_logged_only_by_migrations_witness :
    (get_secret (fun _ => AwsResponse.success "v"
        (SecretString.object [("password", "a")])) "kong").1 =
      (get_secret (fun _ => AwsResponse.success "v"
        (SecretString.object [("password", "b")])) "kong").1 ∧
    IsSubstr cEx.password ("Running: " ++ joinCmd (migration_cmd cEx)) := by
  have h := C2_values_logged_only_by_migrations
  exact ⟨h.2.1 _ _ "kong" "v" _ _ rfl rfl rfl,
    (h.2.2 migrationShell DbState.migrated cEx).2⟩

/-- A secret payload: the JSON object stored under a secret name. -/
abbrev Payload := List (String × String)

/-- The AWS API calls `KongSecretsAdmin` can issue, against the secret
store (`secretsmanager`) or the data store control plane (`rds`). -/
inductive AdminCall
  | describeSecret (name : String)
  | describeDb (id : String)
  | createSecret (name : String) (payload : Payload)
  | getSecretValue (name : String)
  | modifyDb (id : String) (newPassword : String)
  | updateSecret (name : String) (payload : Payload)
  | deleteSecret (name : String) (recoveryDays : Nat)
  deriving DecidableEq, Repr

/-- Which admin calls mutate the secret store. -/
def isSecretStoreMutation : AdminCall → Bool
  | AdminCall.createSecret _ _ => true
  | AdminCall.updateSecret _ _ => true
  | AdminCall.deleteSecret _ _ => true
  | _ => false

/-- Shallow embedding of `KongSecretsAdmin.secret_exists(secret_name)`:
`describe_secret` succeeds exactly when the store holds the name. -/
def secret_exists (store : List (String × Payload)) (name : String) :
    Bool :=
  (store.lookup name).isSome

/-- Shallow embedding of `KongSecretsAdmin.create_secret(secret_name,
db_instance_id, username, dbname)`: if the secret already exists, prints a
guard and returns having issued only the read `describe_secret`; otherwise
discovers the RDS endpoint, generates a password (the generator's output is
the parameter `pw`) and creates the record.  Returns (calls issued, new
store, log). -/
def create_secret (store : List (String × Payload))
    (rds : String → String × String) (pw : String)
    (name dbId username dbname : String) :
    List AdminCall × List (String × Payload) × List String :=
  if secret_exists store name then
    ([AdminCall.describeSecret name], store,
      ["Secret already exists: " ++ name,
        "Creation aborted to prevent credential drift"])
  else
    let ep := rds dbId
    let payload : Payload :=
      [("username", username), ("password", pw), ("host", ep.1),
        ("port", ep.2), ("dbname", dbname), ("engine", "postgres")]
    ([AdminCall.describeSecret name, AdminCall.describeDb dbId,
      AdminCall.createSecret name payload],
      (name, payload) :: store,
      ["Discovering RDS endpoint for " ++ dbId,
        "Creating secret: " ++ name, "Secret created successfully",
        "Ensure DB user password matches this secret"])

/-- Python dict assignment `payload[k] = v`: replaces the value under an
existing key in place, otherwise appends the binding. -/
def setField (p : Payload) (k v : String) : Payload :=
  if (p.lookup k).isSome then
    p.map (fun kv => if kv.1 = k then (k, v) else kv)
  else p ++ [(k, v)]

/-- Shallow embedding of `KongSecretsAdmin.rotate_password(secret_name,
db_instance_id)`.  `confirm` is the line read from the controlling
terminal; anything other than the exact string ROTATE aborts before any
store is touched.  Otherwise the secret is read, the RDS master password
changed, and the secret record's password field overwritten (`pw` is the
generated password).  Returns (calls, new store, log, outcome); a missing
secret surfaces as the store client's error. -/
def rotate_password (confirm : String) (store : List (String × Payload))
    (name dbId pw : String) :
    List AdminCall × List (String × Payload) × List String ×
      Except String Unit :=
  if confirm = "ROTATE" then
    match store.lookup name with
    | none =>
      ([AdminCall.getSecretValue name], store, [],
        Except.error "ResourceNotFoundException")
    | some payload =>
      let newPayload := setField payload "password" pw
      ([AdminCall.getSecretValue name, AdminCall.modifyDb dbId pw,
        AdminCall.updateSecret name newPayload],
        store.map (fun e => if e.1 = name then (name, newPayload) else e),
        ["1/3 Updating RDS password...",
          "Waiting for RDS to apply password (30s)...",
          "2/3 Updating secret...", "3/3 Rotation complete",
          "Restart Kong to apply new credentials"],
        Except.ok ())
  else ([], store, ["Rotation aborted"], Except.ok ())

/-- Shallow embedding of `KongSecretsAdmin.delete_secret(secret_name,
recovery_days=30)`: anything other than the exact string DELETE aborts
before any store is touched; otherwise deletion is scheduled with the
recovery window. -/
def delete_secret (confirm : String) (store : List (String × Payload))
    (name : String) (recoveryDays : Nat) :
    List AdminCall × List (String × Payload) × List String ×
      Except String Unit :=
  if confirm = "DELETE" then
    ([AdminCall.deleteSecret name recoveryDays],
      store.filter (fun e => e.1 ≠ name),
      ["Secret scheduled for deletion"], Except.ok ())
  else ([], store, ["Deletion aborted"], Except.ok ())

/-- C8: when a record with the requested name already exists, create_secret
issues only the read `describe_secret` — zero mutating calls to the secret
store, no endpoint lookup, no record written — leaves the store unchanged
and finishes with a guard message, not an error. -/
theorem C8_create_once_guard (store : List (String × Payload))
    (rds : String → String × String) (pw name dbId username dbname : String)
    (h : secret_exists store name = true) :
    create_secret store rds pw name dbId username dbname =
      ([AdminCall.describeSecret name], store,
        ["Secret already exists: " ++ name,
          "Creation aborted to prevent credential drift"]) ∧
    (∀ call ∈ (create_secret store rds pw name dbId username dbname).1,
      isSecretStoreMutation call = false ∧
      (∀ id, call ≠ AdminCall.describeDb id)) := by
  refine ⟨by simp [create_secret, h], ?_⟩
  intro call hc
  simp only [create_secret, h, if_true] at hc
  simp only [List.mem_singleton] at hc
  subst hc
  exact ⟨rfl, fun id => by simp⟩

/-- Witness for C8 at a store already holding the name. -/
theorem C8_create_once_guard_witness :
    create_secret [("kong/db-credentials", [("password", "old")])]
      (fun _ => ("h", "5432")) "new" "kong/db-credentials" "db1" "kong"
      "kong" =
      ([AdminCall.describeSecret "kong/db-credentials"],
        [("kong/db-credentials", [("password", "old")])],
        ["Secret already exists: " ++ "kong/db-credentials",
          "Creation aborted to prevent credential drift"]) :=
  (C8_create_once_guard [("kong/db-credentials", [("password", "old")])]
    (fun _ => ("h", "5432")) "new" "kong/db-credentials" "db1" "kong" "kong"
    (by decide)).1

/-- C9: an interactive input other than the exact confirmation string
(ROTATE for rotation, DELETE for deletion) makes the privileged operation
abort cleanly — zero calls to either the data store or the secret store,
store unchanged, no read and no mutation, no error. -/
theorem C9_confirmation_guards (confirm : String)
    (store : List (String × Payload)) (name dbId pw : String)
    (days : Nat) :
    (confirm ≠ "ROTATE" →
      rotate_password confirm store name dbId pw =
        ([], store, ["Rotation aborted"], Except.ok ())) ∧
    (confirm ≠ "DELETE" →
      delete_secret confirm store name days =
        ([], store, ["Deletion aborted"], Except.ok ())) := by
  exact ⟨fun h => by simp [rotate_password, h],
    fun h => by simp [delete_secret, h]⟩

/-- Witness for C9 at the input "no". -/
theorem C9_confirmation_guards_witness :
    rotate_password "no" [("s", [("password", "x")])] "s" "db1" "new" =
      ([], [("s", [("password", "x")])], ["Rotation aborted"],
        Except.ok ()) ∧
    delete_secret "no" [("s", [("password", "x")])] "s" 30 =
      ([], [("s", [("password", "x")])], ["Deletion aborted"],
        Except.ok ()) :=
  ⟨(C9_confirmation_guards "no" [("s", [("password", "x")])] "s" "db1"
      "new" 30).1 (by decide),
    (C9_confirmation_guards "no" [("s", [("password", "x")])] "s" "db1"
      "new" 30).2 (by decide)⟩

/-- The single health probe command run by `utils.health_check`. -/
def health_cmd : List String := ["docker", "exec", "kong", "kong", "status"]

/-- Shallow embedding of the `status` branch of `deploy.main`: runs
`docker compose ps` through `run_command` in fail-soft mode and a single
non-retrying health probe; both results are discarded, the branch falls
through to the end of `main`, and the process exits 0.  Returns the
operator log and the process exit code. -/
def main_status (psRes : CmdResult) (probe : Nat → Bool)
    (dur : Nat → Nat) : List String × Nat :=
  match run_command psRes compose_ps_cmd false with
  | (log, Except.error c) => (log, c)
  | (log, Except.ok _) =>
    let _hc := health_check probe dur 1
    (log, 0)

/-- C10: the status operation always exits 0, whatever the container-state
query returned and whatever the single health probe reported — both
outcomes are discarded and are not reflected in the exit code. -/
theorem C10_status_exit_zero (psRes : CmdResult) (probe : Nat → Bool)
    (dur : Nat → Nat) :
    (main_status psRes probe dur).2 = 0 := by
  simp [main_status, run_command]

/-- Extraction of the credential bundle fields accessed by
`run_migrations` and `start_kong` from the fetched payload dictionary;
`none` models the `KeyError` a missing field raises, which the top-level
handler of `deploy.main` turns into exit code 1. -/
def toCredentials (p : Payload) : Option Credentials :=
  match p.lookup "username", p.lookup "password", p.lookup "host",
      p.lookup "port", p.lookup "dbname" with
  | some u, some pw, some h, some po, some db =>
    some ⟨u, pw, h, po, db⟩
  | _, _, _, _, _ => none

/-- Environment of one `deploy.py start` invocation: the outcomes of the
tool checks, the secret store, the external migration tool and data-store
state, the `pg_isready` probe, the compose-up command, and the gateway
health probe. -/
structure StartEnv where
  dockerOk : Bool
  composeOk : Bool
  store : String → AwsResponse
  tool : DbState → DbState × Bool
  db : DbState
  pgProbe : Nat → Bool
  pgDur : Nat → Nat
  composeUpRes : CmdResult
  healthProbe : Nat → Bool
  healthDur : Nat → Nat

/-- Shallow embedding of the `start` branch of `deploy.main`
(`deploy.py` lines 140-162): tool checks, credential fetch, migrations
(unless skipped), `start_kong`; any exception or `sys.exit(1)` yields exit
code 1.  The health-check / rollback block is commented out in the source
(lines 156-160), so the branch prints the success banner and exits 0
without ever consulting the health probe or issuing the stop command.
Returns the list of external commands issued and the process exit code. -/
def main_start (env : StartEnv) (skipMigrations : Bool)
    (secretName : String) : List (List String) × Nat :=
  if env.dockerOk ∧ env.composeOk then
    match (get_secret env.store secretName).2 with
    | Except.error _ => ([], 1)
    | Except.ok payload =>
      match toCredentials payload with
      | none => ([], 1)
      | some creds =>
        let migTrace : List (List String) :=
          if skipMigrations then [] else [migration_cmd creds]
        let migOutcome : Except Nat Unit :=
          if skipMigrations then Except.ok ()
          else (run_migrations env.tool env.db creds).2.2
        match migOutcome with
        | Except.error c => (migTrace, c)
        | Except.ok _ =>
          let sk := start_kong env.pgProbe env.pgDur env.composeUpRes creds
          match sk.2 with
          | Except.error c => (migTrace ++ sk.1, c)
          | Except.ok _ => (migTrace ++ sk.1, 0)
  else ([], 1)

/-- The environment of C1's failing input: every dependency healthy, a
valid credential bundle, reachable data store, successful compose-up — and
a gateway that never passes its health probe. -/
def envC1 : StartEnv where
  dockerOk := true
  composeOk := true
  store := fun _ => AwsResponse.success "v" (SecretString.object
    [("username", "kong"), ("password", "pw1"), ("host", "10.0.0.5"),
      ("port", "5432"), ("dbname", "kong"), ("engine", "postgres")])
  tool := migrationShell
  db := DbState.unmigrated
  pgProbe := fun _ => true
  pgDur := fun _ => 0
  composeUpRes := ⟨0, "", ""⟩
  healthProbe := fun _ => false
  healthDur := fun _ => 0

/-- The bundle `envC1`'s store resolves to. -/
def credsC1 : Credentials := ⟨"kong", "pw1", "10.0.0.5", "5432", "kong"⟩

theorem wfp_const_true (d : Nat → Nat) :
    wait_for_postgres (fun _ => true) d 60 = (true, 1) := by
  rw [wait_for_postgres, wfpLoop]
  norm_num

/-- C1: evaluation of the code at the failing input.  With a reachable
dependency, successful migrations and start command, and a probe that
never reports healthy, the start invocation issues exactly the migration
command, one readiness probe and the compose-up command — it never issues
the stop command, never consults the gateway health probe (the outcome is
identical for every probe function), and exits 0.  This contradicts the
claimed rollback-to-stopped with nonzero exit. -/
theorem C1_start_never_rolls_back :
    main_start envC1 false "kong/db-credentials" =
      ([migration_cmd credsC1, pg_probe_cmd "5432", compose_up_cmd], 0) ∧
    compose_down_cmd ∉ (main_start envC1 false "kong/db-credentials").1 ∧
    health_cmd ∉ (main_start envC1 false "kong/db-credentials").1 ∧
    (∀ probe dur, main_start
        { envC1 with healthProbe := probe, healthDur := dur } false
        "kong/db-credentials" =
      main_start envC1 false "kong/db-credentials") := by
  have htr : main_start envC1 false "kong/db-credentials" =
      ([migration_cmd credsC1, pg_probe_cmd "5432", compose_up_cmd], 0) := by
    simp only [main_start, envC1, get_secret, toCredentials, run_migrations,
      migrationShell, bootstrapStep, run_command, start_kong, wfp_const_true,
      keysOf]
    decide
  refine ⟨htr, ?_, ?_, fun probe dur => ?_⟩
  · rw [htr]; decide
  · rw [htr]; decide
  · simp only [main_start]

end KongGateway
